import Mathlib

/-!
Verification development for the listing-mapper backend.

The repository has two relevant components:
* `services/image-composer.ts` (file `src/unnamed/part_000`): the overlay
  layout engine `generateOverlaySVG` and the compositor `composeMapImage`.
* `src/router.ts`: the tRPC glue, in particular the `compositeMap` mutation
  wrapping `composeMapImage`, and the `config.getApiKeys` query.

The embedding below translates those functions shallowly:
* JS numbers that hold pixel sizes, radii and distances become `ℚ` or `ℕ`
  (exact arithmetic; the claims under study do not depend on binary
  floating-point artifacts).
* `Math.round` becomes `jsRound` (round half toward positive infinity,
  which is JS semantics).
* The SVG template string is modelled structurally: every computed scalar
  (layout constant, truncated string, color, entry line) is a definition
  mirroring the corresponding source expression, and the emitted scene is
  an `OverlayScene` record whose `Option` fields mirror the template's
  conditional interpolations (a JS falsy check emitting `""`).
* The `sharp` library (an external dependency, not repository code) is
  modelled by its documented behavior on the calls the source makes:
  `metadata()` reports optional dimensions carried by the buffer, and
  `composite(...).png().toBuffer()` keeps the base image's pixel
  dimensions, compositing the overlay at offset (0,0).
* `fetch` is modelled by passing the awaited outcome explicitly: the
  promise either rejects with the underlying transport error (which the
  `await` re-raises, so the templated throw never runs) or resolves to a
  response carrying `ok`, `status` and the body bytes.
-/

namespace ListingMapper

/-- Stats of `CompositeMapInput`: four non-negative integer category counts. -/
structure Stats where
  restaurants : Nat
  grocery : Nat
  shopping : Nat
  parks : Nat
deriving Repr, DecidableEq

/-- One entry of `closestPOIs` in `CompositeMapInput`. -/
structure POI where
  name : String
  category : String
  distance : ℚ
deriving Repr, DecidableEq

/-- Input type `CompositeMapInput` from `services/image-composer.ts`. -/
structure CompositeMapInput where
  mapUrl : String
  address : String
  radius : ℚ
  stats : Stats
  closestPOIs : List POI
deriving Repr, DecidableEq

/-- JS `Math.round`: round half toward positive infinity. -/
def jsRound (q : ℚ) : ℤ := ⌊q + 1 / 2⌋

/-- Source: `const baseScale = Math.max(width, height) / 1000`. -/
def baseScale (width height : ℕ) : ℚ := (max width height : ℚ) / 1000

/-- Source: `const scale = Math.max(baseScale, 1.0)`. -/
def scale (width height : ℕ) : ℚ := max (baseScale width height) 1

/-- Source: `const padding = Math.round(12 * scale)`. -/
def padding (w h : ℕ) : ℤ := jsRound (12 * scale w h)

/-- Source: `const boxPadding = Math.round(10 * scale)`. -/
def boxPadding (w h : ℕ) : ℤ := jsRound (10 * scale w h)

/-- Source: `const titleFontSize = Math.round(14 * scale)`. -/
def titleFontSize (w h : ℕ) : ℤ := jsRound (14 * scale w h)

/-- Source: `const textFontSize = Math.round(11 * scale)`. -/
def textFontSize (w h : ℕ) : ℤ := jsRound (11 * scale w h)

/-- Source: `const smallFontSize = Math.round(10 * scale)`. -/
def smallFontSize (w h : ℕ) : ℤ := jsRound (10 * scale w h)

/-- Source: `const dotSize = Math.round(8 * scale)`. -/
def dotSize (w h : ℕ) : ℤ := jsRound (8 * scale w h)

/-- Source: `const lineHeight = Math.round(16 * scale)`. -/
def lineHeight (w h : ℕ) : ℤ := jsRound (16 * scale w h)

/-- Source: `const borderRadius = Math.round(6 * scale)`. -/
def borderRadius (w h : ℕ) : ℤ := jsRound (6 * scale w h)

/-- Source: `const addressBoxWidth = Math.round(240 * scale)`. -/
def addressBoxWidth (w h : ℕ) : ℤ := jsRound (240 * scale w h)

/-- Source: `const addressBoxHeight = Math.round(65 * scale)`. -/
def addressBoxHeight (w h : ℕ) : ℤ := jsRound (65 * scale w h)

/-- Source: `const amenitiesBoxWidth = Math.round(160 * scale)`. -/
def amenitiesBoxWidth (w h : ℕ) : ℤ := jsRound (160 * scale w h)

/-- Source: `const amenitiesBoxHeight = Math.round(115 * scale)`. -/
def amenitiesBoxHeight (w h : ℕ) : ℤ := jsRound (115 * scale w h)

/-- Source: `const closestBoxWidth = Math.round(200 * scale)`. -/
def closestBoxWidth (w h : ℕ) : ℤ := jsRound (200 * scale w h)

/-- Source: `const closestBoxHeight = Math.round(95 * scale)`. -/
def closestBoxHeight (w h : ℕ) : ℤ := jsRound (95 * scale w h)

/-- Source: `const displayAddress = address.length > 40 ?
address.substring(0, 37) + "..." : address`. -/
def displayAddress (address : String) : String :=
  if address.length > 40 then address.take 37 ++ "..." else address

/-- Source: `const addressLine1 = displayAddress.substring(0, 30)`. -/
def addressLine1 (address : String) : String := (displayAddress address).take 30

/-- Source: `const addressLine2 = displayAddress.length > 30 ?
displayAddress.substring(30) : ""`. -/
def addressLine2 (address : String) : String :=
  if (displayAddress address).length > 30 then (displayAddress address).drop 30 else ""

/-- Template fragment for the second address line. The source only emits the
second `<text>` element when `addressLine2` is truthy, i.e. non-empty:
the interpolation is `addressLine2 ? <text element> : ""`. `none` models the
absent element. -/
def addressLine2Elem (address : String) : Option String :=
  if addressLine2 address = "" then none else some (addressLine2 address)

/-- Source: the `categoryColors` record literal, an object keyed by
category tag. Note the keys are the singular forms `restaurant` and `park`,
while `grocery` and `shopping` have no distinct plural. -/
def categoryColors : List (String × String) :=
  [("restaurant", "#F97316"),
   ("grocery", "#92400E"),
   ("shopping", "#A855F7"),
   ("park", "#22C55E")]

/-- Source: `categoryColors[poi.category] || "#666666"` — JS property lookup
on the record, defaulting to neutral gray when the key is absent (the looked-up
color strings are non-empty, hence truthy, so `||` is exactly `getD`). -/
def poiColor (category : String) : String :=
  (categoryColors.lookup category).getD "#666666"

/-- Source: `poi.name.length > 22 ? poi.name.substring(0, 19) + "..." : poi.name`. -/
def truncatedPoiName (name : String) : String :=
  if name.length > 22 then name.take 19 ++ "..." else name

/-- JS `Number.prototype.toFixed(1)`, on exact rationals: round the value to
one decimal (half toward positive infinity, as the ES spec prescribes for
exactly representable ties) and print it with exactly one digit after the
decimal point. Distances are non-negative per the data model. -/
def toFixed1 (q : ℚ) : String :=
  let n : ℤ := jsRound (q * 10)
  toString (n / 10) ++ "." ++ toString (n % 10)

/-- Source: one element of `closestEntries`, the interpolated string
`<tspan fill="COLOR">●</tspan> NAME (D.Dmi)`. -/
def closestEntry (poi : POI) : String :=
  "<tspan fill=\"" ++ poiColor poi.category ++ "\">●</tspan> " ++
    truncatedPoiName poi.name ++ " (" ++ toFixed1 poi.distance ++ "mi)"

/-- Source: `const closestEntries = closestPOIs.slice(0, 4).map((poi) => ...)`. -/
def closestEntries (closestPOIs : List POI) : List String :=
  (closestPOIs.take 4).map closestEntry

/-- Template fragment for the closest-locations box: the source emits the
whole `<g>` block only when `closestEntries.length > 0`, otherwise the
interpolation contributes `""`. `none` models the absent box. -/
def closestBoxElem (closestPOIs : List POI) : Option (List String) :=
  if (closestEntries closestPOIs).length > 0 then some (closestEntries closestPOIs) else none

/-- Source: `const brandColor = "#1E40AF"`. -/
def brandColor : String := "#1E40AF"

/-- The five dot/label pairs of the Nearby Amenities box, written out
unconditionally in the template: the listing marker plus the four category
count lines, each a fill color and a text content. -/
def legendEntries (stats : Stats) : List (String × String) :=
  [(brandColor, "Your Listing"),
   ("#F97316", "Restaurants: " ++ toString stats.restaurants),
   ("#92400E", "Grocery: " ++ toString stats.grocery),
   ("#A855F7", "Shopping: " ++ toString stats.shopping),
   ("#22C55E", "Parks: " ++ toString stats.parks)]

/-- Source: the radius caption `${radiusMiles} mile${radiusMiles !== 1 ? "s" : ""}
radius` — this is its unit word, `mile` plus the conditionally appended `s`. -/
def radiusUnitWord (radiusMiles : ℚ) : String :=
  "mile" ++ (if radiusMiles ≠ 1 then "s" else "")

/-- Structural model of the SVG document returned by `generateOverlaySVG`:
the root dimensions and, per box, the computed text/color content. The
two `Option` fields mirror the template's conditional interpolations. -/
structure OverlayScene where
  width : ℕ
  height : ℕ
  addressLine1 : String
  addressLine2Elem : Option String
  radiusValue : ℚ
  radiusUnitWord : String
  legend : List (String × String)
  closestBox : Option (List String)
deriving Repr, DecidableEq

/-- Model of `generateOverlaySVG(address, radiusMiles, stats, closestPOIs,
width, height)`: assembles the scene content exactly as the template does. -/
def generateOverlaySVG (address : String) (radiusMiles : ℚ) (stats : Stats)
    (closestPOIs : List POI) (width height : ℕ) : OverlayScene :=
  { width := width
    height := height
    addressLine1 := addressLine1 address
    addressLine2Elem := addressLine2Elem address
    radiusValue := radiusMiles
    radiusUnitWord := radiusUnitWord radiusMiles
    legend := legendEntries stats
    closestBox := closestBoxElem closestPOIs }

/-- A fetched map image buffer. `realWidth`/`realHeight` are the raster's
intrinsic pixel dimensions; `metaWidth`/`metaHeight` are what `sharp`'s
`metadata()` reports for it (`none` models `undefined`, i.e. dimensions that
cannot be determined from the metadata). -/
structure MapBuffer where
  realWidth : ℕ
  realHeight : ℕ
  metaWidth : Option ℕ
  metaHeight : Option ℕ
deriving Repr, DecidableEq

/-- A response the `fetch(input.mapUrl)` promise resolved to: the `ok`
flag, the HTTP status and the body bytes (already in decoded-buffer
form). -/
structure FetchResponse where
  ok : Bool
  status : ℕ
  body : MapBuffer
deriving Repr, DecidableEq

/-- The outcome of awaiting `fetch(input.mapUrl)`: a transport failure
makes the promise reject with the underlying error (identified here by its
message string), which `await` re-raises out of `composeMapImage` before
the `!response.ok` guard is ever reached; otherwise the promise resolves
to a `FetchResponse`. -/
inductive FetchOutcome where
  | transportError (err : String)
  | resolved (resp : FetchResponse)
deriving Repr, DecidableEq

/-- An error escaping `composeMapImage`: either the propagated underlying
transport error of a rejected `fetch`, or the function's own templated
throw `new Error(...)` for a resolved non-success response. -/
inductive ComposeError where
  | transportError (err : String)
  | fetchFailed (status : ℕ)
deriving Repr, DecidableEq

/-- The message string of the escaping error: a propagated transport error
keeps its own message; the templated throw's message is
`Failed to fetch map image: ${response.status}`. -/
def ComposeError.message : ComposeError → String
  | .transportError err => err
  | .fetchFailed status => "Failed to fetch map image: " ++ toString status

/-- JS `x || d` on an optional number: `undefined` and `0` are falsy and
yield the default. Models `metadata.width || 1280` and
`metadata.height || 960`. -/
def jsOrNat (x : Option ℕ) (d : ℕ) : ℕ :=
  match x with
  | some w => if w = 0 then d else w
  | none => d

/-- The composited output of `composeMapImage`: the encoded PNG's pixel
dimensions together with the overlay that was merged onto it at offset
(0,0). `sharp(mapBuffer).composite([...]).png().toBuffer()` keeps the base
buffer's dimensions, which is what `width`/`height` record. -/
structure ComposedImage where
  width : ℕ
  height : ℕ
  overlay : OverlayScene
deriving Repr, DecidableEq

/-- Model of `composeMapImage`: awaited fetch (a rejection propagates
unchanged), `!response.ok` guard with the templated throw, metadata
fallback, overlay generation, composite. The awaited fetch outcome is
passed in explicitly as `outcome`. -/
def composeMapImage (input : CompositeMapInput) (outcome : FetchOutcome) :
    Except ComposeError ComposedImage :=
  match outcome with
  | FetchOutcome.transportError err =>
    Except.error (ComposeError.transportError err)
  | FetchOutcome.resolved resp =>
    if resp.ok = false then
      Except.error (ComposeError.fetchFailed resp.status)
    else
      let mapBuffer := resp.body
      let width := jsOrNat mapBuffer.metaWidth 1280
      let height := jsOrNat mapBuffer.metaHeight 960
      let overlaySvg :=
        generateOverlaySVG input.address input.radius input.stats input.closestPOIs width height
      Except.ok
        { width := mapBuffer.realWidth
          height := mapBuffer.realHeight
          overlay := overlaySvg }

/-- Model of the `compositeMap` mutation in `src/router.ts`: it awaits
`composeMapImage` inside a `try`, and on ANY error rethrows the generic
`new Error("Failed to compose map image")`; the error surfaced to the
external caller is that message alone. -/
def compositeMap (input : CompositeMapInput) (outcome : FetchOutcome) :
    Except String ComposedImage :=
  match composeMapImage input outcome with
  | Except.ok img => Except.ok img
  | Except.error _ => Except.error ("Failed to compose map image")

/-- The response shape of the `config.getApiKeys` query in `src/router.ts`. -/
structure ApiKeysResponse where
  googlePlacesConfigured : Bool
  mapboxConfigured : Bool
  googlePlacesKey : String
  mapboxToken : String
deriving Repr, DecidableEq

/-- Model of `config.getApiKeys`, parameterized by the module-level
environment values `GOOGLE_PLACES_API_KEY = process.env.GOOGLE_PLACES_API_KEY
|| ""` and `MAPBOX_ACCESS_TOKEN = process.env.MAPBOX_ACCESS_TOKEN || ""`.
`!!s` on a JS string is truthiness, i.e. non-emptiness. The query returns the
two configured flags AND the raw key strings themselves. -/
def getApiKeys (googlePlacesApiKey mapboxAccessToken : String) : ApiKeysResponse :=
  { googlePlacesConfigured := !(googlePlacesApiKey == "")
    mapboxConfigured := !(mapboxAccessToken == "")
    googlePlacesKey := googlePlacesApiKey
    mapboxToken := mapboxAccessToken }

/-- C4: for every canvas width and height, the layout scale is
`max(1.0, max(W,H)/1000)` — so a 500×500 canvas gives scale 1.0 and a
2000×1500 canvas gives scale 2.0 — and every size constant of the overlay
(padding, box dimensions, font sizes, dot size, line height, border radius)
is its base constant multiplied by this scale and rounded to the nearest
integer. -/
theorem overlay_scaling_rule (w h : ℕ) :
    scale w h = max 1 ((max w h : ℕ) / 1000 : ℚ) ∧
    scale 500 500 = 1 ∧
    scale 2000 1500 = 2 ∧
    padding w h = jsRound (12 * scale w h) ∧
    boxPadding w h = jsRound (10 * scale w h) ∧
    titleFontSize w h = jsRound (14 * scale w h) ∧
    textFontSize w h = jsRound (11 * scale w h) ∧
    smallFontSize w h = jsRound (10 * scale w h) ∧
    dotSize w h = jsRound (8 * scale w h) ∧
    lineHeight w h = jsRound (16 * scale w h) ∧
    borderRadius w h = jsRound (6 * scale w h) ∧
    addressBoxWidth w h = jsRound (240 * scale w h) ∧
    addressBoxHeight w h = jsRound (65 * scale w h) ∧
    amenitiesBoxWidth w h = jsRound (160 * scale w h) ∧
    amenitiesBoxHeight w h = jsRound (115 * scale w h) ∧
    closestBoxWidth w h = jsRound (200 * scale w h) ∧
    closestBoxHeight w h = jsRound (95 * scale w h) := by
  refine ⟨?_, ?_, ?_, rfl, rfl, rfl, rfl, rfl, rfl, rfl, rfl,
    rfl, rfl, rfl, rfl, rfl, rfl⟩
  · rw [scale, baseScale, Nat.cast_max]
    exact max_comm _ _
  · have hb : baseScale 500 500 = 1 / 2 := by
      rw [baseScale, max_self]
      norm_num
    rw [scale, hb]
    exact max_eq_right (by norm_num)
  · have hb : baseScale 2000 1500 = 2 := by
      rw [baseScale, max_eq_left (by norm_num)]
      norm_num
    rw [scale, hb]
    exact max_eq_left (by norm_num)

/-- C5: the displayed address is the input unmodified when its length is at
most 40 characters, and its first 37 characters followed by an ellipsis when
longer; the first address line is the first 30 characters of the displayed
address, and the second line element exists exactly when the displayed
address exceeds 30 characters, holding the remainder. -/
theorem address_truncation_and_split (address : String) :
    displayAddress address =
      (if address.length ≤ 40 then address else address.take 37 ++ "...") ∧
    addressLine1 address = (displayAddress address).take 30 ∧
    addressLine2Elem address =
      (if (displayAddress address).length > 30
       then some ((displayAddress address).drop 30) else none) := by
  refine ⟨?_, rfl, ?_⟩
  · rw [displayAddress]
    rcases le_or_lt address.length 40 with hle | hlt
    · rw [if_neg (by omega), if_pos hle]
    · rw [if_pos hlt, if_neg (by omega)]
  · rcases le_or_lt (displayAddress address).length 30 with hle | hlt
    · have h2 : addressLine2 address = "" := by
        rw [addressLine2, if_neg (by omega)]
      simp [addressLine2Elem, h2, Nat.not_lt.mpr hle]
    · have h2 : addressLine2 address = (displayAddress address).drop 30 := by
        rw [addressLine2, if_pos hlt]
      have hdata : (displayAddress address).length = (displayAddress address).data.length := rfl
      have h3 : (displayAddress address).drop 30 ≠ "" := by
        intro he
        have hd : ((displayAddress address).drop 30).data = ([] : List Char) := by
          rw [he]
        rw [String.data_drop] at hd
        have hlen := congrArg List.length hd
        simp only [List.length_drop, List.length_nil] at hlen
        omega
      simp [addressLine2Elem, h2, h3, hlt]

/-- C6: the radius caption's unit word is the singular `mile` exactly when
the radius equals 1, and the plural `miles` for every other value, including
0 and fractional values such as 2.5. -/
theorem radius_unit_pluralization (r : ℚ) :
    radiusUnitWord r = (if r = 1 then "mile" else "miles") ∧
    radiusUnitWord 1 = "mile" ∧
    radiusUnitWord 0 = "miles" ∧
    radiusUnitWord (5 / 2) = "miles" := by
  have hgen : ∀ s : ℚ, radiusUnitWord s = (if s = 1 then "mile" else "miles") := by
    intro s
    rcases eq_or_ne s 1 with he | hne
    · subst he
      rw [radiusUnitWord, if_neg (fun hcon => hcon rfl), if_pos rfl]
      decide
    · rw [radiusUnitWord, if_pos hne, if_neg hne]
      decide
  refine ⟨hgen r, ?_, ?_, ?_⟩
  · rw [hgen 1, if_pos rfl]
  · rw [hgen 0, if_neg (by norm_num)]
  · rw [hgen (5 / 2), if_neg (by norm_num)]

/-- C3 counterexample: the claim says the tag set is {restaurants, grocery,
shopping, parks}, but the `categoryColors` record is keyed by the singular
forms `restaurant` and `park`; the plural tags `restaurants` and `parks`
therefore fall through to the neutral gray `#666666` instead of yielding
orange and green as the claim states. -/
theorem poi_plural_category_counterexample :
    poiColor ("restaurants") = "#666666" ∧
    poiColor ("parks") = "#666666" ∧
    ("#666666" : String) ≠ "#F97316" ∧
    ("#666666" : String) ≠ "#22C55E" := by
  decide

/-- C3 amended: a bullet's color is fixed by category tag for the set
{restaurant, grocery, shopping, park} (the singular forms, as keyed in the
source's `categoryColors` record): orange, brown, purple, green
respectively; every other tag — including `cafe` and the plural forms —
yields the neutral gray fallback `#666666`, which is none of the four fixed
category colors. -/
theorem poiColor_category_mapping (c : String) :
    poiColor c =
      (if c = "restaurant" then "#F97316"
       else if c = "grocery" then "#92400E"
       else if c = "shopping" then "#A855F7"
       else if c = "park" then "#22C55E"
       else "#666666") ∧
    poiColor ("cafe") = "#666666" ∧
    ("#666666" : String) ∉ (["#F97316", "#92400E", "#A855F7", "#22C55E"] : List String) := by
  refine ⟨?_, by decide, by decide⟩
  rw [poiColor, categoryColors]
  by_cases h1 : c = "restaurant"
  · simp [List.lookup, h1]
  · by_cases h2 : c = "grocery"
    · simp [List.lookup, h1, h2]
    · by_cases h3 : c = "shopping"
      · simp [List.lookup, h1, h2, h3]
      · by_cases h4 : c = "park"
        · simp [List.lookup, h1, h2, h3, h4]
        · have e1 : (c == "restaurant") = false := beq_eq_false_iff_ne.mpr h1
          have e2 : (c == "grocery") = false := beq_eq_false_iff_ne.mpr h2
          have e3 : (c == "shopping") = false := beq_eq_false_iff_ne.mpr h3
          have e4 : (c == "park") = false := beq_eq_false_iff_ne.mpr h4
          simp [List.lookup, e1, e2, e3, e4, h1, h2, h3, h4]

/-- C7: the closest-locations box is absent exactly when the POI list is
empty; otherwise it holds the entry lines built, in the caller-supplied
order, from at most the first 4 POIs, each line carrying the category
bullet color, the name unmodified when at most 22 characters (else its
first 19 characters plus an ellipsis), and the distance printed with one
decimal place followed by `mi`. -/
theorem closest_locations_rendering (pois : List POI) :
    closestBoxElem pois = (if pois = [] then none else some (closestEntries pois)) ∧
    (closestEntries pois).length = min pois.length 4 ∧
    closestEntries pois = (pois.take 4).map (fun poi =>
      "<tspan fill=\"" ++ poiColor poi.category ++ "\">●</tspan> " ++
        (if poi.name.length ≤ 22 then poi.name else poi.name.take 19 ++ "...") ++
        " (" ++ toFixed1 poi.distance ++ "mi)") := by
  refine ⟨?_, ?_, ?_⟩
  · cases pois with
    | nil => simp [closestBoxElem, closestEntries]
    | cons p ps => simp [closestBoxElem, closestEntries]
  · rw [closestEntries, List.length_map, List.length_take]
    omega
  · have hf : closestEntry = fun poi =>
        "<tspan fill=\"" ++ poiColor poi.category ++ "\">●</tspan> " ++
          (if poi.name.length ≤ 22 then poi.name else poi.name.take 19 ++ "...") ++
          " (" ++ toFixed1 poi.distance ++ "mi)" := by
      funext poi
      rw [closestEntry, truncatedPoiName]
      rcases le_or_lt poi.name.length 22 with hle | hlt
      · rw [if_neg (by omega), if_pos hle]
      · rw [if_pos hlt, if_neg (by omega)]
    rw [closestEntries, hf]

/-- C8: the amenities legend always has exactly five entries — the listing
marker plus the four category count lines in fixed colors — for every stats
value; a zero count renders as the text `0` and no line is omitted. -/
theorem amenities_legend_complete (stats : Stats) :
    (legendEntries stats).length = 5 ∧
    (legendEntries stats).map Prod.fst =
      ([brandColor, "#F97316", "#92400E", "#A855F7", "#22C55E"] : List String) ∧
    (legendEntries stats).map Prod.snd =
      (["Your Listing",
        "Restaurants: " ++ toString stats.restaurants,
        "Grocery: " ++ toString stats.grocery,
        "Shopping: " ++ toString stats.shopping,
        "Parks: " ++ toString stats.parks] : List String) ∧
    legendEntries ⟨0, 0, 0, 0⟩ =
      ([("#1E40AF", "Your Listing"), ("#F97316", "Restaurants: 0"),
        ("#92400E", "Grocery: 0"), ("#A855F7", "Shopping: 0"),
        ("#22C55E", "Parks: 0")] : List (String × String)) := by
  refine ⟨rfl, rfl, rfl, by decide⟩

/-- C1: for every annotation bundle and every successfully fetched and
decoded base image (the metadata reports the buffer's true nonzero
dimensions), `composeMapImage` succeeds and the composite has exactly the
base image's pixel width and height, with the overlay generated at those
same dimensions and composited at offset (0,0), so the base image's size
is never changed. -/
theorem composeMapImage_preserves_base_dimensions
    (input : CompositeMapInput) (resp : FetchResponse)
    (hok : resp.ok = true)
    (hw : resp.body.metaWidth = some resp.body.realWidth)
    (hh : resp.body.metaHeight = some resp.body.realHeight)
    (hw0 : resp.body.realWidth ≠ 0)
    (hh0 : resp.body.realHeight ≠ 0) :
    ∃ out : ComposedImage,
      composeMapImage input (FetchOutcome.resolved resp) = Except.ok out ∧
      out.width = resp.body.realWidth ∧
      out.height = resp.body.realHeight ∧
      out.overlay.width = resp.body.realWidth ∧
      out.overlay.height = resp.body.realHeight := by
  simp only [composeMapImage]
  rw [hok]
  simp only [Bool.true_eq_false, if_false, hw, hh, jsOrNat, if_neg hw0, if_neg hh0]
  exact ⟨_, rfl, rfl, rfl, rfl, rfl⟩

/-- C1 witness: a concrete 800×600 fetched image with faithful metadata
composes to an 800×600 output with an 800×600 overlay. -/
theorem composeMapImage_preserves_base_dimensions_witness :
    ∃ out : ComposedImage,
      composeMapImage
          { mapUrl := "http://maps.example/t.png", address := "1 Main St",
            radius := 1, stats := ⟨1, 2, 3, 4⟩, closestPOIs := [] }
          (FetchOutcome.resolved
            { ok := true, status := 200,
              body := { realWidth := 800, realHeight := 600,
                        metaWidth := some 800, metaHeight := some 600 } }) = Except.ok out ∧
      out.width = 800 ∧
      out.height = 600 ∧
      out.overlay.width = 800 ∧
      out.overlay.height = 600 :=
  composeMapImage_preserves_base_dimensions _ _ rfl rfl rfl (by decide) (by decide)

/-- C2 counterexample: for a request whose base-image fetch resolves to a
non-success response (status 500), `composeMapImage` itself fails with the
fetch-phase error, but the `compositeMap` mutation in `src/router.ts`
catches it and surfaces only the generic `Failed to compose map image` to
the external caller — a string different from the fetch-phase message,
carrying no indication that the fetch phase (as opposed to composition)
failed; a transport failure (the fetch promise rejecting with, e.g.,
`fetch failed`) is likewise surfaced as the same generic message. -/
theorem fetch_phase_error_not_surfaced_counterexample :
    composeMapImage
        { mapUrl := "http://maps.example/t.png", address := "1 Main St",
          radius := 1, stats := ⟨0, 0, 0, 0⟩, closestPOIs := [] }
        (FetchOutcome.resolved
          { ok := false, status := 500,
            body := { realWidth := 0, realHeight := 0,
                      metaWidth := none, metaHeight := none } }) =
      Except.error (ComposeError.fetchFailed 500) ∧
    compositeMap
        { mapUrl := "http://maps.example/t.png", address := "1 Main St",
          radius := 1, stats := ⟨0, 0, 0, 0⟩, closestPOIs := [] }
        (FetchOutcome.resolved
          { ok := false, status := 500,
            body := { realWidth := 0, realHeight := 0,
                      metaWidth := none, metaHeight := none } }) =
      Except.error ("Failed to compose map image") ∧
    ("Failed to compose map image" : String) ≠ (ComposeError.fetchFailed 500).message ∧
    compositeMap
        { mapUrl := "http://maps.example/t.png", address := "1 Main St",
          radius := 1, stats := ⟨0, 0, 0, 0⟩, closestPOIs := [] }
        (FetchOutcome.transportError ("fetch failed")) =
      Except.error ("Failed to compose map image") := by
  refine ⟨rfl, rfl, by decide, rfl⟩

/-- C2 amended: for every input whose base-image fetch yields a non-success
response or a transport failure, the compositing call fails without
returning any image bytes. A resolved non-success response makes
`composeMapImage` throw its fetch-phase error
`Failed to fetch map image: <status>`; a transport failure makes the fetch
promise reject and the underlying error propagates unchanged (the templated
throw never runs). In either case the router's `compositeMap` catch-all
rethrows the single generic `Failed to compose map image`, so the error
surfaced to the external caller does not distinguish the fetch phase from a
composition-phase failure. -/
theorem fetch_failure_error_surfacing
    (input : CompositeMapInput) (resp : FetchResponse) (err : String)
    (hfail : resp.ok = false) :
    composeMapImage input (FetchOutcome.resolved resp) =
      Except.error (ComposeError.fetchFailed resp.status) ∧
    (ComposeError.fetchFailed resp.status).message =
      "Failed to fetch map image: " ++ toString resp.status ∧
    composeMapImage input (FetchOutcome.transportError err) =
      Except.error (ComposeError.transportError err) ∧
    (ComposeError.transportError err).message = err ∧
    compositeMap input (FetchOutcome.resolved resp) =
      Except.error ("Failed to compose map image") ∧
    compositeMap input (FetchOutcome.transportError err) =
      Except.error ("Failed to compose map image") := by
  have h1 : composeMapImage input (FetchOutcome.resolved resp) =
      Except.error (ComposeError.fetchFailed resp.status) := by
    simp only [composeMapImage]
    rw [hfail]
    rfl
  refine ⟨h1, rfl, rfl, rfl, ?_, rfl⟩
  rw [compositeMap, h1]

/-- C2 witness: a concrete non-success response (status 404) and a concrete
transport rejection each produce their internal error and the generic
external error, with no image value. -/
theorem fetch_failure_error_surfacing_witness :
    composeMapImage
        { mapUrl := "http://maps.example/u.png", address := "2 Oak Ave",
          radius := 2, stats := ⟨0, 0, 0, 0⟩, closestPOIs := [] }
        (FetchOutcome.resolved
          { ok := false, status := 404,
            body := { realWidth := 0, realHeight := 0,
                      metaWidth := none, metaHeight := none } }) =
      Except.error (ComposeError.fetchFailed 404) ∧
    (ComposeError.fetchFailed 404).message = "Failed to fetch map image: " ++ toString 404 ∧
    composeMapImage
        { mapUrl := "http://maps.example/u.png", address := "2 Oak Ave",
          radius := 2, stats := ⟨0, 0, 0, 0⟩, closestPOIs := [] }
        (FetchOutcome.transportError ("getaddrinfo ENOTFOUND maps.example")) =
      Except.error (ComposeError.transportError ("getaddrinfo ENOTFOUND maps.example")) ∧
    (ComposeError.transportError ("getaddrinfo ENOTFOUND maps.example")).message =
      "getaddrinfo ENOTFOUND maps.example" ∧
    compositeMap
        { mapUrl := "http://maps.example/u.png", address := "2 Oak Ave",
          radius := 2, stats := ⟨0, 0, 0, 0⟩, closestPOIs := [] }
        (FetchOutcome.resolved
          { ok := false, status := 404,
            body := { realWidth := 0, realHeight := 0,
                      metaWidth := none, metaHeight := none } }) =
      Except.error ("Failed to compose map image") ∧
    compositeMap
        { mapUrl := "http://maps.example/u.png", address := "2 Oak Ave",
          radius := 2, stats := ⟨0, 0, 0, 0⟩, closestPOIs := [] }
        (FetchOutcome.transportError ("getaddrinfo ENOTFOUND maps.example")) =
      Except.error ("Failed to compose map image") :=
  fetch_failure_error_surfacing _ _ _ rfl

/-- C9: when the fetch succeeds but the image metadata determines neither
dimension, `composeMapImage` does not fail: it substitutes the fixed
defaults 1280×960 and proceeds to generate and composite the overlay at
that default size. -/
theorem decode_fallback_default_dimensions
    (input : CompositeMapInput) (resp : FetchResponse)
    (hok : resp.ok = true)
    (hw : resp.body.metaWidth = none)
    (hh : resp.body.metaHeight = none) :
    ∃ out : ComposedImage,
      composeMapImage input (FetchOutcome.resolved resp) = Except.ok out ∧
      out.overlay =
        generateOverlaySVG input.address input.radius input.stats input.closestPOIs 1280 960 ∧
      out.overlay.width = 1280 ∧
      out.overlay.height = 960 := by
  simp only [composeMapImage]
  rw [hok]
  simp only [Bool.true_eq_false, if_false, hw, hh, jsOrNat]
  exact ⟨_, rfl, rfl, rfl, rfl⟩

/-- C9 witness: a concrete successful fetch with undetermined metadata
composes successfully with a 1280×960 overlay. -/
theorem decode_fallback_default_dimensions_witness :
    ∃ out : ComposedImage,
      composeMapImage
          { mapUrl := "http://maps.example/v.png", address := "3 Pine Rd",
            radius := 1, stats := ⟨5, 6, 7, 8⟩,
            closestPOIs := [⟨"Cafe", "cafe", 1⟩] }
          (FetchOutcome.resolved
            { ok := true, status := 200,
              body := { realWidth := 640, realHeight := 480,
                        metaWidth := none, metaHeight := none } }) = Except.ok out ∧
      out.overlay =
        generateOverlaySVG ("3 Pine Rd") 1 ⟨5, 6, 7, 8⟩ [⟨"Cafe", "cafe", 1⟩] 1280 960 ∧
      out.overlay.width = 1280 ∧
      out.overlay.height = 960 :=
  decode_fallback_default_dimensions _ _ rfl rfl rfl

/-- C10: the `config.getApiKeys` query returns the actual secret values of
the two environment keys in its `googlePlacesKey` and `mapboxToken` fields
(alongside the configured flags), so its response is not independent of
the secrets: two runs with different key values produce different
caller-visible responses. -/
theorem getApiKeys_returns_secrets (k1 k2 t : String) :
    (getApiKeys k1 t).googlePlacesKey = k1 ∧
    (getApiKeys k1 t).mapboxToken = t ∧
    (getApiKeys k1 t).googlePlacesConfigured = !(k1 == "") ∧
    (k1 ≠ k2 → getApiKeys k1 t ≠ getApiKeys k2 t) := by
  refine ⟨rfl, rfl, rfl, ?_⟩
  intro hne heq
  exact hne (congrArg ApiKeysResponse.googlePlacesKey heq)

/-- C10 witness: two concrete runs differing only in the Google Places key
value produce different responses, and each response carries the raw key. -/
theorem getApiKeys_returns_secrets_witness :
    (getApiKeys ("key-alpha") ("tok-1")).googlePlacesKey = "key-alpha" ∧
    (getApiKeys ("key-alpha") ("tok-1")).mapboxToken = "tok-1" ∧
    (getApiKeys ("key-alpha") ("tok-1")).googlePlacesConfigured = !("key-alpha" == "") ∧
    getApiKeys ("key-alpha") ("tok-1") ≠ getApiKeys ("key-beta") ("tok-1") :=
  ⟨(getApiKeys_returns_secrets ("key-alpha") ("key-beta") ("tok-1")).1,
   (getApiKeys_returns_secrets ("key-alpha") ("key-beta") ("tok-1")).2.1,
   (getApiKeys_returns_secrets ("key-alpha") ("key-beta") ("tok-1")).2.2.1,
   (getApiKeys_returns_secrets ("key-alpha") ("key-beta") ("tok-1")).2.2.2 (by decide)⟩

end ListingMapper
